import Mathlib

/-!
Verification of the new-site monthly ramp projection in `app.py`
(`monthly_new`, the per-row `calc` loop, and the `new_df` aggregation).

Modelling conventions:
* Calendar periods are encoded as absolute month indices `absMonth y m = y*12 + (m-1)`
  (an affine shift of the pandas `Period` month ordinal, preserving order and
  month arithmetic).  `pd.Period(f"{y}-{m}", freq="M")` requires the month to be
  in 1..12 and raises otherwise; `pdPeriodM` returns `none` in that case.
  The finite `Timestamp` range of `ym.to_timestamp()` (years ~1677..2262) is
  not modelled; all concrete instances below stay well inside it.
* Numeric volumes are modelled over `ℚ` (the Python code computes in floats).
* A spreadsheet cell is `Option String`: `none` models a missing/NaN cell,
  `some s` a present value (its string rendering, as taken by `int(...)` /
  `str(...)` in the row loop).  `pyInt?` models Python `int(...)`: an optional
  sign followed by a nonempty run of decimal digits (Python's additional
  tolerance for surrounding whitespace and digit-group underscores is not
  modelled; no input below uses those forms).
-/

namespace GasSupply

/-- A produced row of the per-site projection: (period, volume),
    i.e. the `{"연월": ..., "신규물량(㎥)": ...}` record of `monthly_new`. -/
abbrev Entry := Int × ℚ

/-- Python `str.split("-")` on the character list of a string: `""` gives
    `[""]`, adjacent separators give empty groups. -/
def splitDash : List Char → List (List Char)
  | [] => [[]]
  | c :: cs =>
    let rest := splitDash cs
    if c = '-' then [] :: rest
    else
      match rest with
      | [] => [[c]]
      | g :: gs => (c :: g) :: gs

/-- Accumulate a decimal digit run; `none` on any non-digit character. -/
def natOfDigits (acc : Nat) : List Char → Option Nat
  | [] => some acc
  | c :: cs => if c.isDigit then natOfDigits (acc * 10 + (c.toNat - 48)) cs else none

/-- Python `int(s)` on a character list: optional `+`/`-` sign, then a
    nonempty run of decimal digits; anything else raises (`none`). -/
def pyInt? : List Char → Option Int
  | [] => none
  | '-' :: rest =>
    if rest.isEmpty then none else (natOfDigits 0 rest).map fun n => -(n : Int)
  | '+' :: rest =>
    if rest.isEmpty then none else (natOfDigits 0 rest).map fun n => (n : Int)
  | cs => (natOfDigits 0 cs).map fun n => (n : Int)

/-- `y, m = map(int, start.split("-"))`: succeeds exactly when the string
    splits on `"-"` into two integer-parseable parts. -/
def parseYM (s : String) : Option (Int × Int) :=
  match splitDash s.toList with
  | [ys, ms] =>
    match pyInt? ys, pyInt? ms with
    | some y, some m => some (y, m)
    | _, _ => none
  | _ => none

/-- Absolute month index of calendar period (y, m): `y*12 + (m-1)`. -/
def absMonth (y m : Int) : Int := y * 12 + (m - 1)

/-- `pd.Period(f"{y}-{m}", freq="M")`: valid iff the month is in 1..12;
    returns the absolute month index. -/
def pdPeriodM (y m : Int) : Option Int :=
  if 1 ≤ m ∧ m ≤ 12 then some (absMonth y m) else none

/-- `monthly_new(hh, start, avg, ramp)` from `app.py`:
    parses `start` as `YYYY-MM`, then for each index `i` and percentage `p`
    of `ramp` emits the entry `(start+i months, hh*avg*(p/100))`.
    The `pd.Period` construction happens inside the loop, so an out-of-range
    month is only detected when `ramp` is nonempty; an empty `ramp` yields an
    empty frame without touching the period. -/
def monthly_new (hh : Int) (start : String) (avg : ℚ) (ramp : List Int) :
    Option (List Entry) :=
  match parseYM start with
  | none => none
  | some (y, m) =>
    if ramp.isEmpty then some [] else
    match pdPeriodM y m with
    | none => none
    | some pm =>
      some (ramp.enum.map fun ip => (pm + (ip.1 : Int), (hh : ℚ) * avg * ((ip.2 : ℚ) / 100)))

/-- One row of the `new_sites` editable grid: columns
    `단지` (name), `세대수` (units), `입주개시(YYYY-MM)` (start period).
    `none` models a NaN cell. -/
structure SiteRow where
  name : Option String
  units : Option String
  start : Option String
deriving DecidableEq

/-- A row survives `new_sites.dropna()` iff no cell is NaN. -/
def rowComplete (r : SiteRow) : Bool :=
  r.name.isSome && r.units.isSome && r.start.isSome

/-- `new_sites.dropna()`: drop every row with any NaN cell. -/
def dropna (rows : List SiteRow) : List SiteRow :=
  rows.filter rowComplete

/-- The body of the `calc` loop for a single (dropna-surviving) row:
    `monthly_new(int(r["세대수"]), str(r["입주개시(YYYY-MM)"]), hh_avg, ramp)`
    wrapped in `try/except` — `none` models the swallowed exception. -/
def rowCalc (avg : ℚ) (ramp : List Int) (r : SiteRow) : Option (List Entry) :=
  match pyInt? (r.units.getD "").toList with
  | none => none
  | some hh => monthly_new hh (r.start.getD "") avg ramp

/-- The `calc` list from `app.py` (named `calcList` because `calc` is a Lean
    keyword): one projected frame per row that survives `dropna` and whose
    `try` body does not raise. -/
def calcList (avg : ℚ) (ramp : List Int) (rows : List SiteRow) :
    List (List Entry) :=
  (dropna rows).filterMap (rowCalc avg ramp)

/-- `pd.concat(calc)`: all projected entries across all successful rows. -/
def allEntries (avg : ℚ) (ramp : List Int) (rows : List SiteRow) : List Entry :=
  (calcList avg ramp rows).flatten

/-- The volume the groupby assigns to period `p`: the sum of the volumes of
    all entries with that period. -/
def totalFor (entries : List Entry) (p : Int) : ℚ :=
  ((entries.filter fun e => e.1 == p).map Prod.snd).sum

/-- `new_df = pd.concat(calc).groupby("연월", as_index=False)["신규물량(㎥)"].sum()`:
    one row per distinct period, in ascending period order (pandas `groupby`
    sorts its keys), carrying the summed volume. -/
def new_df (avg : ℚ) (ramp : List Int) (rows : List SiteRow) : List Entry :=
  (((allEntries avg ramp rows).map Prod.fst).toFinset.sort (· ≤ ·)).map
    fun p => (p, totalFor (allEntries avg ramp rows) p)

/-! ### Helper lemmas -/

/-- Shape of a successful `monthly_new` run: the start string parsed, and the
    output is either empty (for an empty ramp) or the enumerated map with a
    validated base period. -/
lemma monthly_new_some_shape {hh : Int} {start : String} {avg : ℚ} {ramp : List Int}
    {out : List Entry} (h : monthly_new hh start avg ramp = some out) :
    ∃ y m, parseYM start = some (y, m) ∧
      ((ramp = [] ∧ out = []) ∨
        ∃ pm, pdPeriodM y m = some pm ∧
          out = ramp.enum.map fun ip =>
            ((pm + (ip.1 : Int), (hh : ℚ) * avg * ((ip.2 : ℚ) / 100)) : Entry)) := by
  unfold monthly_new at h
  split at h
  · exact absurd h (by simp)
  · rename_i y m heq
    refine ⟨y, m, heq, ?_⟩
    split at h
    · rename_i he
      left
      exact ⟨List.isEmpty_iff.mp he, by simpa using h.symm⟩
    · split at h
      · exact absurd h (by simp)
      · rename_i pm hpm
        exact Or.inr ⟨pm, hpm, by simpa using h.symm⟩

/-- A successful projection has one entry per ramp index. -/
lemma monthly_new_length_aux {hh : Int} {start : String} {avg : ℚ} {ramp : List Int}
    {out : List Entry} (h : monthly_new hh start avg ramp = some out) :
    out.length = ramp.length := by
  obtain ⟨y, m, -, hcase⟩ := monthly_new_some_shape h
  rcases hcase with ⟨hr, ho⟩ | ⟨pm, -, ho⟩
  · simp [hr, ho]
  · simp [ho]

/-- Entry `i` of a successful projection carries volume `hh * avg * (ramp[i]/100)`. -/
lemma monthly_new_volume_aux {hh : Int} {start : String} {avg : ℚ} {ramp : List Int}
    {out : List Entry} (h : monthly_new hh start avg ramp = some out)
    (i : ℕ) (hi : i < out.length) :
    out[i].2 = (hh : ℚ) * avg * ((ramp.getD i 0 : ℚ) / 100) := by
  obtain ⟨y, m, -, hcase⟩ := monthly_new_some_shape h
  rcases hcase with ⟨hr, ho⟩ | ⟨pm, -, ho⟩
  · subst ho; exact absurd hi (by simp)
  · have hir : i < ramp.length := by
      simpa [monthly_new_length_aux h] using hi
    subst ho
    simp [List.getElem_map, List.getElem_enum, List.getD_eq_getElem, hir]

/-- Entry `i` of a successful projection has period `absMonth y m + i`. -/
lemma monthly_new_period_aux {hh : Int} {start : String} {avg : ℚ} {ramp : List Int}
    {out : List Entry} {y m : Int} (hp : parseYM start = some (y, m))
    (h : monthly_new hh start avg ramp = some out)
    (i : ℕ) (hi : i < out.length) :
    out[i].1 = absMonth y m + i := by
  obtain ⟨y', m', hp', hcase⟩ := monthly_new_some_shape h
  have hy : y' = y := by
    have h2 := hp'.symm.trans hp
    exact congrArg Prod.fst (Option.some.inj h2)
  have hm : m' = m := by
    have h2 := hp'.symm.trans hp
    exact congrArg Prod.snd (Option.some.inj h2)
  subst hy
  subst hm
  rcases hcase with ⟨hr, ho⟩ | ⟨pm, hpm, ho⟩
  · subst ho; exact absurd hi (by simp)
  · have hir : i < ramp.length := by
      simpa [monthly_new_length_aux h] using hi
    subst ho
    unfold pdPeriodM at hpm
    split at hpm
    · obtain rfl := Option.some.inj hpm
      simp [List.getElem_map, List.getElem_enum]
    · exact absurd hpm (by simp)

/-- The end-to-end example of the spec: 500 units from 2026-03, consumption 30,
    ramp 30/60/85/100. -/
lemma monthly_new_example :
    monthly_new 500 "2026-03" 30 [30, 60, 85, 100] =
      some [(24314, 4500), (24315, 9000), (24316, 12750), (24317, 15000)] := by
  have hp : parseYM "2026-03" = some (2026, 3) := by decide
  simp [monthly_new, hp, pdPeriodM, absMonth, List.enum, List.enumFrom]
  norm_num

/-- A row whose start parses and whose month is valid projects to the full
    enumerated map, whatever the unit count. -/
lemma monthly_new_valid_some (hh y m pm : Int) (start : String) (avg : ℚ)
    (ramp : List Int) (hp : parseYM start = some (y, m))
    (hm : pdPeriodM y m = some pm) :
    monthly_new hh start avg ramp =
      some (ramp.enum.map fun ip =>
        ((pm + (ip.1 : Int), (hh : ℚ) * avg * ((ip.2 : ℚ) / 100)) : Entry)) := by
  unfold monthly_new
  rw [hp]
  cases he : ramp.isEmpty
  · simp [he, hm]
  · simp [he, List.isEmpty_iff.mp he]

/-! ### Claims -/

/-- C1: every entry `i` produced by the projection has volume exactly
    `units * consumption * (ramp[i] / 100)`; in particular, for 500 units,
    consumption 30 and ramp [30, 60, 85, 100] starting 2026-03, the four
    contributions are 4500, 9000, 12750 and 15000 for 2026-03..2026-06. -/
theorem monthly_new_volume_formula (hh : Int) (start : String) (avg : ℚ)
    (ramp : List Int) (out : List Entry)
    (h : monthly_new hh start avg ramp = some out) (i : ℕ) (hi : i < out.length) :
    out[i].2 = (hh : ℚ) * avg * ((ramp.getD i 0 : ℚ) / 100) ∧
      monthly_new 500 "2026-03" 30 [30, 60, 85, 100] =
        some [(24314, 4500), (24315, 9000), (24316, 12750), (24317, 15000)] :=
  ⟨monthly_new_volume_aux h i hi, monthly_new_example⟩

/-- Witness for C1 at the spec's own example, index 2: volume 12750. -/
theorem monthly_new_volume_formula_witness :
    (([(24314, 4500), (24315, 9000), (24316, 12750), (24317, 15000)] :
        List Entry)[2]).2 =
      ((500 : Int) : ℚ) * 30 * ((([30, 60, 85, 100].getD 2 0 : Int) : ℚ) / 100) ∧
      monthly_new 500 "2026-03" 30 [30, 60, 85, 100] =
        some [(24314, 4500), (24315, 9000), (24316, 12750), (24317, 15000)] :=
  monthly_new_volume_formula 500 "2026-03" 30 [30, 60, 85, 100]
    [(24314, 4500), (24315, 9000), (24316, 12750), (24317, 15000)]
    monthly_new_example 2 (by norm_num)

/-- C2: a valid site's projection has exactly `len(ramp)` entries — the ramp
    schedule alone determines the horizon. -/
theorem monthly_new_length_eq_ramp_length (hh : Int) (start : String) (avg : ℚ)
    (ramp : List Int) (out : List Entry)
    (h : monthly_new hh start avg ramp = some out) :
    out.length = ramp.length :=
  monthly_new_length_aux h

/-- Witness for C2 at the spec's example: 4 entries for a 4-step ramp. -/
theorem monthly_new_length_eq_ramp_length_witness :
    ([(24314, 4500), (24315, 9000), (24316, 12750), (24317, 15000)] :
        List Entry).length = ([30, 60, 85, 100] : List Int).length :=
  monthly_new_length_eq_ramp_length 500 "2026-03" 30 [30, 60, 85, 100]
    [(24314, 4500), (24315, 9000), (24316, 12750), (24317, 15000)]
    monthly_new_example

/-- C3: entry `i` of a projection has period `start_period + i` months in the
    absolute-month encoding, and the encoding rolls the calendar over: month 13
    of year Y is month 1 of year Y+1. -/
theorem monthly_new_periods_consecutive (hh : Int) (start : String) (avg : ℚ)
    (ramp : List Int) (out : List Entry) (y m : Int)
    (hp : parseYM start = some (y, m))
    (h : monthly_new hh start avg ramp = some out) (i : ℕ) (hi : i < out.length) :
    out[i].1 = absMonth y m + i ∧ ∀ Y : Int, absMonth Y 13 = absMonth (Y + 1) 1 := by
  refine ⟨monthly_new_period_aux hp h i hi, fun Y => ?_⟩
  unfold absMonth
  ring

/-- Witness for C3 at the spec's example, index 3: period 2026-06. -/
theorem monthly_new_periods_consecutive_witness :
    (([(24314, 4500), (24315, 9000), (24316, 12750), (24317, 15000)] :
        List Entry)[3]).1 = absMonth 2026 3 + 3 ∧
      ∀ Y : Int, absMonth Y 13 = absMonth (Y + 1) 1 :=
  monthly_new_periods_consecutive 500 "2026-03" 30 [30, 60, 85, 100]
    [(24314, 4500), (24315, 9000), (24316, 12750), (24317, 15000)] 2026 3
    (by decide) monthly_new_example 3 (by norm_num)

/-- C4: a row whose `try` body raises (bad unit count or bad period string) is
    excluded from the aggregation, and all other rows of the same call produce
    exactly the same contributions as without it. -/
theorem calcList_excludes_malformed (avg : ℚ) (ramp : List Int)
    (l1 l2 : List SiteRow) (r : SiteRow) (h : rowCalc avg ramp r = none) :
    calcList avg ramp (l1 ++ r :: l2) = calcList avg ramp (l1 ++ l2) := by
  unfold calcList dropna
  by_cases hc : rowComplete r <;>
    simp [List.filter_append, List.filter_cons, hc, List.filterMap_append,
      List.filterMap_cons, h]

/-- Witness for C4: a bad start period ("bad") and a bad unit count ("abc")
    are each dropped while the valid neighbouring site is kept intact. -/
theorem calcList_excludes_malformed_witness :
    (rowCalc 30 [30, 60, 85, 100] ⟨some "B", some "400", some "bad"⟩ = none ∧
      calcList 30 [30, 60, 85, 100]
          [⟨some "A", some "500", some "2026-03"⟩, ⟨some "B", some "400", some "bad"⟩] =
        calcList 30 [30, 60, 85, 100] [⟨some "A", some "500", some "2026-03"⟩]) ∧
    (rowCalc 30 [30, 60, 85, 100] ⟨some "C", some "abc", some "2026-04"⟩ = none ∧
      calcList 30 [30, 60, 85, 100]
          [⟨some "C", some "abc", some "2026-04"⟩, ⟨some "A", some "500", some "2026-03"⟩] =
        calcList 30 [30, 60, 85, 100] [⟨some "A", some "500", some "2026-03"⟩]) :=
  ⟨⟨by decide,
    calcList_excludes_malformed 30 [30, 60, 85, 100]
      [⟨some "A", some "500", some "2026-03"⟩] []
      ⟨some "B", some "400", some "bad"⟩ (by decide)⟩,
   ⟨by decide,
    calcList_excludes_malformed 30 [30, 60, 85, 100] []
      [⟨some "A", some "500", some "2026-03"⟩]
      ⟨some "C", some "abc", some "2026-04"⟩ (by decide)⟩⟩

/-- C5 counterexample: a site with unit count "-5" is NOT dropped — the loop
    projects it, with four (negative-volume) entries, so it neither raises nor
    contributes an empty sequence. -/
theorem negative_units_site_dropped_ce :
    rowCalc 30 [30, 60, 85, 100] ⟨some "A", some "-5", some "2026-03"⟩ =
      some [(24314, -45), (24315, -90), (24316, -255/2), (24317, -150)] ∧
    ¬(rowCalc 30 [30, 60, 85, 100] ⟨some "A", some "-5", some "2026-03"⟩ = none ∨
      rowCalc 30 [30, 60, 85, 100] ⟨some "A", some "-5", some "2026-03"⟩ = some []) := by
  have he : rowCalc 30 [30, 60, 85, 100] ⟨some "A", some "-5", some "2026-03"⟩ =
      some [(24314, -45), (24315, -90), (24316, -255/2), (24317, -150)] := by
    have hu : pyInt? ['-', '5'] = some (-5) := by decide
    have hp : parseYM "2026-03" = some (2026, 3) := by decide
    simp [rowCalc, hu, monthly_new, hp, pdPeriodM, absMonth, List.enum, List.enumFrom]
    norm_num
  refine ⟨he, ?_⟩
  rw [he]
  rintro (h | h) <;> simp at h

/-- C5 amended: a site whose unit count parses as a negative integer is not
    treated as invalid — with a valid start period it is projected like any
    other site, producing `len(ramp)` entries; only unit counts that fail
    integer parsing cause the row to be skipped. -/
theorem negative_units_site_projected (nm us start : String) (avg : ℚ)
    (ramp : List Int) (hh y m pm : Int)
    (hu : pyInt? us.toList = some hh) (hneg : hh < 0)
    (hp : parseYM start = some (y, m)) (hm : pdPeriodM y m = some pm) :
    (∃ out, rowCalc avg ramp ⟨some nm, some us, some start⟩ = some out ∧
      out.length = ramp.length) ∧
    ∀ us2 : String, pyInt? us2.toList = none →
      rowCalc avg ramp ⟨some nm, some us2, some start⟩ = none := by
  constructor
  · refine ⟨ramp.enum.map fun ip =>
      ((pm + (ip.1 : Int), (hh : ℚ) * avg * ((ip.2 : ℚ) / 100)) : Entry), ?_, ?_⟩
    · unfold rowCalc
      simp only [Option.getD_some]
      rw [hu]
      exact monthly_new_valid_some hh y m pm start avg ramp hp hm
    · simp
  · intro us2 hu2
    unfold rowCalc
    simp only [Option.getD_some]
    rw [hu2]

/-- Witness for C5's amended claim at units "-5", start 2026-03. -/
theorem negative_units_site_projected_witness :
    ((∃ out, rowCalc 30 [30, 60, 85, 100] ⟨some "A", some "-5", some "2026-03"⟩ =
        some out ∧ out.length = ([30, 60, 85, 100] : List Int).length) ∧
      ∀ us2 : String, pyInt? us2.toList = none →
        rowCalc 30 [30, 60, 85, 100] ⟨some "A", some us2, some "2026-03"⟩ = none) :=
  negative_units_site_projected "A" "-5" "2026-03" 30 [30, 60, 85, 100]
    (-5) 2026 3 24314 (by decide) (by norm_num) (by decide) (by decide)

/-- C6: with the data model's sign constraints (non-negative units, consumption
    and ramp percentages), every produced volume is non-negative, and it is
    exactly zero when the ramp percentage at that offset is zero. -/
theorem monthly_new_volume_nonneg (hh : Int) (start : String) (avg : ℚ)
    (ramp : List Int) (out : List Entry) (hhh : 0 ≤ hh) (havg : 0 ≤ avg)
    (hr : ∀ p ∈ ramp, 0 ≤ p) (h : monthly_new hh start avg ramp = some out)
    (i : ℕ) (hi : i < out.length) :
    0 ≤ out[i].2 ∧ (ramp.getD i 0 = 0 → out[i].2 = 0) := by
  have hv := monthly_new_volume_aux h i hi
  have hir : i < ramp.length := by
    simpa [monthly_new_length_aux h] using hi
  constructor
  · rw [hv]
    have hp0 : (0 : Int) ≤ ramp.getD i 0 := by
      rw [List.getD_eq_getElem _ _ hir]
      exact hr _ (List.getElem_mem hir)
    have hc : (0 : ℚ) ≤ ((ramp.getD i 0 : Int) : ℚ) := by exact_mod_cast hp0
    exact mul_nonneg (mul_nonneg (by exact_mod_cast hhh) havg)
      (div_nonneg hc (by norm_num))
  · intro h0
    rw [hv, h0]
    simp

/-- Witness for C6 with ramp [0, 60]: the zero-percentage entry has volume 0. -/
theorem monthly_new_volume_nonneg_witness :
    0 ≤ (([(24314, 0), (24315, 9000)] : List Entry)[0]).2 ∧
      (([0, 60] : List Int).getD 0 0 = 0 →
        (([(24314, 0), (24315, 9000)] : List Entry)[0]).2 = 0) :=
  monthly_new_volume_nonneg 500 "2026-03" 30 [0, 60] [(24314, 0), (24315, 9000)]
    (by norm_num) (by norm_num) (by decide)
    (by have hp : parseYM "2026-03" = some (2026, 3) := by decide
        simp [monthly_new, hp, pdPeriodM, absMonth, List.enum, List.enumFrom]
        norm_num)
    0 (by norm_num)

/-- C9: a site with unit count "0" and a valid start period is not treated as
    malformed: it produces the full `len(ramp)` entries, each with volume 0. -/
theorem zero_units_site_full_projection (nm start : String) (avg : ℚ)
    (ramp : List Int) (y m pm : Int)
    (hp : parseYM start = some (y, m)) (hm : pdPeriodM y m = some pm) :
    ∃ out, rowCalc avg ramp ⟨some nm, some "0", some start⟩ = some out ∧
      out.length = ramp.length ∧ ∀ e ∈ out, e.2 = 0 := by
  refine ⟨ramp.enum.map fun ip =>
      ((pm + (ip.1 : Int), ((0 : Int) : ℚ) * avg * ((ip.2 : ℚ) / 100)) : Entry), ?_, ?_, ?_⟩
  · unfold rowCalc
    simp only [Option.getD_some]
    rw [show pyInt? "0".toList = some 0 from by decide]
    exact monthly_new_valid_some 0 y m pm start avg ramp hp hm
  · simp
  · intro e he
    simp only [List.mem_map] at he
    obtain ⟨ip, -, rfl⟩ := he
    simp

/-- Witness for C9: units "0" starting 2026-03 with the default ramp. -/
theorem zero_units_site_full_projection_witness :
    ∃ out, rowCalc 30 [30, 60, 85, 100] ⟨some "A", some "0", some "2026-03"⟩ =
        some out ∧
      out.length = ([30, 60, 85, 100] : List Int).length ∧ ∀ e ∈ out, e.2 = 0 :=
  zero_units_site_full_projection "A" "2026-03" 30 [30, 60, 85, 100] 2026 3 24314
    (by decide) (by decide)

/-- C10: a row with any NaN cell — even just the descriptive name — is removed
    by `dropna()` before projection and contributes nothing, while the other
    rows are unaffected. -/
theorem calcList_drops_incomplete_row (avg : ℚ) (ramp : List Int)
    (l1 l2 : List SiteRow) (r : SiteRow)
    (h : r.name = none ∨ r.units = none ∨ r.start = none) :
    calcList avg ramp (l1 ++ r :: l2) = calcList avg ramp (l1 ++ l2) := by
  have hc : rowComplete r = false := by
    rcases h with h | h | h <;> simp [rowComplete, h]
  unfold calcList dropna
  simp [List.filter_append, List.filter_cons, hc]

/-- Witness for C10: a row with valid units and start but a NaN name is
    dropped; the neighbouring valid site is untouched. -/
theorem calcList_drops_incomplete_row_witness :
    ((⟨none, some "500", some "2026-03"⟩ : SiteRow).name = none ∨
      (⟨none, some "500", some "2026-03"⟩ : SiteRow).units = none ∨
      (⟨none, some "500", some "2026-03"⟩ : SiteRow).start = none) ∧
    calcList 30 [30, 60, 85, 100]
        [⟨some "A", some "500", some "2026-03"⟩, ⟨none, some "500", some "2026-03"⟩] =
      calcList 30 [30, 60, 85, 100] [⟨some "A", some "500", some "2026-03"⟩] :=
  ⟨Or.inl rfl,
   calcList_drops_incomplete_row 30 [30, 60, 85, 100]
     [⟨some "A", some "500", some "2026-03"⟩] []
     ⟨none, some "500", some "2026-03"⟩ (Or.inl rfl)⟩

/-- Permuting the site rows permutes the pooled entries. -/
lemma allEntries_perm (avg : ℚ) (ramp : List Int) {rows1 rows2 : List SiteRow}
    (h : rows1.Perm rows2) :
    (allEntries avg ramp rows1).Perm (allEntries avg ramp rows2) := by
  unfold allEntries calcList dropna
  exact ((h.filter _).filterMap _).flatten

/-- Per-period totals only depend on the entry multiset. -/
lemma totalFor_perm {e1 e2 : List Entry} (h : e1.Perm e2) (p : Int) :
    totalFor e1 p = totalFor e2 p :=
  List.Perm.sum_eq ((h.filter _).map _)

/-- C7: aggregation is order-independent — permuting the input site rows
    leaves both the period-to-volume mapping and the emitted (sorted) series
    unchanged. -/
theorem new_df_perm_invariant (avg : ℚ) (ramp : List Int)
    (rows1 rows2 : List SiteRow) (h : rows1.Perm rows2) :
    (∀ p : Int, totalFor (allEntries avg ramp rows1) p =
      totalFor (allEntries avg ramp rows2) p) ∧
    new_df avg ramp rows1 = new_df avg ramp rows2 := by
  have he := allEntries_perm avg ramp h
  refine ⟨fun p => totalFor_perm he p, ?_⟩
  unfold new_df
  rw [List.toFinset_eq_of_perm _ _ (he.map Prod.fst)]
  exact List.map_congr_left fun p _ => by rw [totalFor_perm he p]

/-- Witness for C7: swapping two concrete sites leaves the aggregate alone. -/
theorem new_df_perm_invariant_witness :
    (∀ p : Int,
      totalFor (allEntries 30 [30, 60, 85, 100]
        [⟨some "A", some "500", some "2026-03"⟩, ⟨some "B", some "200", some "2026-05"⟩]) p =
      totalFor (allEntries 30 [30, 60, 85, 100]
        [⟨some "B", some "200", some "2026-05"⟩, ⟨some "A", some "500", some "2026-03"⟩]) p) ∧
    new_df 30 [30, 60, 85, 100]
        [⟨some "A", some "500", some "2026-03"⟩, ⟨some "B", some "200", some "2026-05"⟩] =
      new_df 30 [30, 60, 85, 100]
        [⟨some "B", some "200", some "2026-05"⟩, ⟨some "A", some "500", some "2026-03"⟩] :=
  new_df_perm_invariant 30 [30, 60, 85, 100]
    [⟨some "A", some "500", some "2026-03"⟩, ⟨some "B", some "200", some "2026-05"⟩]
    [⟨some "B", some "200", some "2026-05"⟩, ⟨some "A", some "500", some "2026-03"⟩]
    (List.Perm.swap _ _ [])

/-- C8: the aggregated series is emitted with its periods in strictly
    ascending order. -/
theorem new_df_sorted_by_period (avg : ℚ) (ramp : List Int)
    (rows : List SiteRow) :
    ((new_df avg ramp rows).map Prod.fst).Sorted (· < ·) := by
  unfold new_df
  rw [List.map_map]
  have hid : (Prod.fst ∘ fun p =>
      ((p : Int), totalFor (allEntries avg ramp rows) p)) = id := rfl
  rw [hid, List.map_id]
  exact Finset.sort_sorted_lt _

end GasSupply
